import Mathlib

/-!
OboeTester `NativeAudioContext.h`: a shallow embedding.

The header `apps/OboeTester/app/src/main/cpp/NativeAudioContext.h` declares the
activity hierarchy (`ActivityContext` and its subclasses) and the selector
`NativeAudioContext`.  Every member function whose body is in the header is
translated below as a pure function on an explicit state record.

Conventions.

* `int`, `int32_t` are `Int`; the values are only stored and compared, never
  computed with, so no wrap-around occurs.
* `double` is a type parameter `D`: amplitudes and delay times are only stored
  and passed on, never computed with.
* A pointer is an `Option`: `none` is `nullptr`.
* An operation whose C++ behaviour is undefined (indexing a `std::vector` past its
  end, dereferencing a null `unique_ptr`) returns `none`.
* Member functions declared in the header but defined elsewhere
  (`stopPlayback`, `stopAllStreams`) are parameters of the functions that call
  them.
-/

namespace OboeTester

/-! ## Collaborators declared outside the header -/

/-- An open audio stream is identified by the address of its `oboe::AudioStream`. -/
abbrev StreamHandle := Nat

/-- A `std::thread` object is identified by its address. -/
abbrev ThreadId := Nat

/-- Modelled from the spec: `oboe::Result` is declared in the Oboe library, outside
the header.  The spec describes it as a result code returned from stream
operations, with one distinguished OK value; every other code is an error. -/
structure Result where
  code : Int
  deriving DecidableEq, Repr

/-- The success code `oboe::Result::OK`. -/
def Result.OK : Result := ⟨0⟩

/-- Modelled from the spec: the flowgraph generator classes (`SineOscillator`,
`SawtoothOscillator`, `ImpulseOscillator`) are declared outside the header.  The
spec describes a generator as producing samples from internal phase and amplitude
state; `amplitude.setValue` stores a new amplitude. -/
structure Generator (D : Type) where
  amplitude : D
  phase : D
  deriving DecidableEq, Repr

/-- The call `node.amplitude.setValue(value)`. -/
def Generator.setAmplitudeValue {D : Type} (g : Generator D) (value : D) : Generator D :=
  { g with amplitude := value }

/-- Modelled from the spec: `SawPingGenerator` is declared outside the header.
The spec describes it as a dedicated ping generator whose burst is toggled by
`setEnabled`; it has the amplitude port of every generator. -/
structure SawPingGenerator (D : Type) where
  amplitude : D
  phase : D
  enabled : Bool
  deriving DecidableEq, Repr

/-- The call `sawPingGenerator.amplitude.setValue(value)`. -/
def SawPingGenerator.setAmplitudeValue {D : Type} (g : SawPingGenerator D) (value : D) :
    SawPingGenerator D :=
  { g with amplitude := value }

/-- Modelled from the spec: `SawPingGenerator::setEnabled` is defined outside the
header; per the spec it toggles the burst. -/
def SawPingGenerator.setEnabled {D : Type} (g : SawPingGenerator D) (enabled : Bool) :
    SawPingGenerator D :=
  { g with enabled := enabled }

/-- Modelled from the spec: `ManyToMultiConverter` is declared outside the header.
Per the spec `setChannelEnabled` mutes or unmutes a single output channel without
rebuilding the graph; the per-channel flags are the channel-enabled state. -/
structure ManyToMultiConverter where
  channelEnabled : List Bool
  deriving DecidableEq, Repr

/-- Modelled from the spec: `FullDuplexEcho` is declared outside the header.  Per
the spec its `setDelayTime` adjusts the delay line length. -/
structure FullDuplexEcho (D : Type) where
  delayTimeSeconds : D
  deriving DecidableEq, Repr

/-- Modelled from the spec: `FullDuplexEcho::setDelayTime`, defined outside the
header. -/
def FullDuplexEcho.setDelayTime {D : Type} (_e : FullDuplexEcho D) (delayTimeSeconds : D) :
    FullDuplexEcho D :=
  { delayTimeSeconds := delayTimeSeconds }

/-- Modelled from the spec: `LatencyAnalyzer` is declared outside the header.  Per
the spec it has a state code and a measurement result. -/
structure LatencyAnalyzer where
  state : Int
  result : Int
  deriving DecidableEq, Repr

/-- Modelled from the spec: `FullDuplexLatency` is declared outside the header; it
owns the latency analyzer and reports whether the analysis is done. -/
structure FullDuplexLatency where
  latencyAnalyzer : LatencyAnalyzer
  done : Bool
  deriving DecidableEq, Repr

/-- Modelled from the spec: `GlitchAnalyzer` is declared outside the header.  Per
the spec it has a state code and a result (the glitch count). -/
structure GlitchAnalyzer where
  state : Int
  result : Int
  deriving DecidableEq, Repr

/-- Modelled from the spec: `FullDuplexGlitches` is declared outside the header; it
owns the glitch analyzer and reports whether the analysis is done. -/
structure FullDuplexGlitches where
  glitchAnalyzer : GlitchAnalyzer
  done : Bool
  deriving DecidableEq, Repr

/-! ## `ActivityContext` -/

/-- The constant `ActivityContext::kMaxStreams`. -/
def kMaxStreams : Nat := 8

/-- The constant `MAX_SINE_OSCILLATORS`. -/
def MAX_SINE_OSCILLATORS : Nat := 8

/-- The data members of `ActivityContext` (src lines 174-189). -/
structure ActivityContext where
  mOboeStreams : Fin kMaxStreams → Option StreamHandle
  mFramesPerBurst : Int
  mChannelCount : Int
  mSampleRate : Int
  threadEnabled : Bool
  dataThread : Option ThreadId
  mLibHandle : Option Nat

/-- The member initialisers of `ActivityContext`: an empty stream table, zero
parameters, no background thread. -/
def ActivityContext.init : ActivityContext :=
  { mOboeStreams := fun _ => none
    mFramesPerBurst := 0
    mChannelCount := 0
    mSampleRate := 0
    threadEnabled := false
    dataThread := none
    mLibHandle := none }

/-- What the expression `mOboeStreams[streamIndex]` does: inside the array it
yields the stored pointer, outside it reads memory at that offset from the start
of the array, which is undefined behaviour. -/
inductive SlotRead
  | stored (stream : Option StreamHandle)
  | outsideTable (offset : Int)
  deriving DecidableEq, Repr

/-- The function `ActivityContext::getStream` (src lines 75-77):
`return mOboeStreams[streamIndex]; // TODO range check`.  The body indexes the
array with no test on `streamIndex`. -/
def ActivityContext.getStream (s : ActivityContext) (streamIndex : Int) : SlotRead :=
  if h : 0 ≤ streamIndex ∧ streamIndex < (kMaxStreams : Int) then
    SlotRead.stored (s.mOboeStreams ⟨streamIndex.toNat, by
      have h2 := h.2
      simp only [kMaxStreams] at h2 ⊢
      omega⟩)
  else
    SlotRead.outsideTable streamIndex

/-- The effects `stopBlockingIOThread` has on the thread system, in program order. -/
inductive ThreadEffect
  | storeThreadEnabled (value : Bool)
  | joinThread (thread : ThreadId)
  deriving DecidableEq, Repr

/-- The function `ActivityContext::stopBlockingIOThread` (src lines 130-137).  It
returns the new field values and the thread effects it performed. -/
def ActivityContext.stopBlockingIOThread (s : ActivityContext) :
    ActivityContext × List ThreadEffect :=
  match s.dataThread with
  | some thread =>
    ({ s with threadEnabled := false, dataThread := none },
      [ThreadEffect.storeThreadEnabled false, ThreadEffect.joinThread thread])
  | none => (s, [])

/-- The function `ActivityContext::stop` (src lines 108-110): `return stopAllStreams();`.
`stopAllStreams` is defined outside the header and is a parameter. -/
def ActivityContext.stop {σ : Type} (stopAllStreams : σ → Result × σ) (s : σ) : Result × σ :=
  stopAllStreams s

/-! ## `ActivityTestInput`, `ActivityRecording` -/

/-- The data members of `ActivityTestInput` (src lines 211-213). -/
structure ActivityTestInput extends ActivityContext where
  mRecording : Option Nat

/-- The member initialisers of `ActivityTestInput`. -/
def ActivityTestInput.init : ActivityTestInput :=
  { ActivityContext.init with mRecording := none }

/-- The data members of `ActivityRecording` (src lines 247-248). -/
structure ActivityRecording extends ActivityTestInput where
  playbackStream : Option StreamHandle

/-- The member initialisers of `ActivityRecording`. -/
def ActivityRecording.init : ActivityRecording :=
  { ActivityTestInput.init with playbackStream := none }

/-- The function `ActivityRecording::stop` (src lines 232-241).  `stopPlayback` and
`stopAllStreams` are defined outside the header and are parameters; each returns
its result code and the state it leaves. -/
def ActivityRecording.stop {σ : Type} (stopPlayback stopAllStreams : σ → Result × σ)
    (s : σ) : Result × σ :=
  let resultStopPlayback := stopPlayback s
  let resultStopAudio := ActivityContext.stop stopAllStreams resultStopPlayback.2
  let result :=
    if resultStopPlayback.1 ≠ Result.OK then resultStopPlayback.1 else resultStopAudio.1
  (result, resultStopAudio.2)

/-- The two teardown sub-steps of `ActivityRecording::stop`. -/
inductive TeardownCall
  | stopPlayback
  | stopAllStreams
  deriving DecidableEq, Repr

/-- A sub-step instrumented to record that it was called: the state carries the
list of calls made so far, oldest first. -/
def recordCall {σ : Type} (call : TeardownCall) (f : σ → Result × σ) :
    σ × List TeardownCall → Result × (σ × List TeardownCall) :=
  fun st => ((f st.1).1, ((f st.1).2, st.2 ++ [call]))

/-! ## `ActivityTestOutput`, `ActivityTapToTone` -/

/-- The enumeration `ActivityTestOutput::ToneType` (src lines 287-292). -/
inductive ToneType
  | SawPing
  | Sine
  | Impulse
  | Sawtooth
  deriving DecidableEq, Repr

/-- The data members of `ActivityTestOutput` (src lines 295-304). -/
structure ActivityTestOutput (D : Type) extends ActivityContext where
  mToneType : ToneType
  sineOscillators : List (Generator D)
  sawtoothOscillators : List (Generator D)
  impulseGenerator : Generator D
  manyToMulti : Option ManyToMultiConverter
  monoToMulti : Option Nat
  mSinkFloat : Option Nat
  mSinkI16 : Option Nat

/-- The constructor of `ActivityTestOutput` (src lines 257-259): both oscillator
vectors get `MAX_SINE_OSCILLATORS` default-constructed elements.  The default
generator `g` is a parameter, its constructor being outside the header. -/
def ActivityTestOutput.init {D : Type} (g : Generator D) : ActivityTestOutput D :=
  { ActivityContext.init with
    mToneType := ToneType.Sine
    sineOscillators := List.replicate MAX_SINE_OSCILLATORS g
    sawtoothOscillators := List.replicate MAX_SINE_OSCILLATORS g
    impulseGenerator := g
    manyToMulti := none
    monoToMulti := none
    mSinkFloat := none
    mSinkI16 := none }

/-- The statement `oscillators[i].amplitude.setValue(amplitude)` on a `std::vector`:
undefined (`none`) when `i` is past the end. -/
def setOscillatorAmplitude {D : Type} (oscillators : List (Generator D)) (i : Nat)
    (amplitude : D) : Option (List (Generator D)) :=
  if h : i < oscillators.length then
    some (oscillators.set i ((oscillators.get ⟨i, h⟩).setAmplitudeValue amplitude))
  else
    none

/-- The loop `for (int i = 0; i < mChannelCount; i++)` of
`ActivityTestOutput::setAmplitude` (src lines 277-280), started at index `i` with
`remaining` iterations to go. -/
def setAmplitudeLoop {D : Type} (amplitude : D) :
    Nat → Nat → List (Generator D) → List (Generator D) →
      Option (List (Generator D) × List (Generator D))
  | 0, _, sine, saw => some (sine, saw)
  | remaining + 1, i, sine, saw =>
    match setOscillatorAmplitude sine i amplitude with
    | none => none
    | some sine1 =>
      match setOscillatorAmplitude saw i amplitude with
      | none => none
      | some saw1 => setAmplitudeLoop amplitude remaining (i + 1) sine1 saw1

/-- The function `ActivityTestOutput::setAmplitude` (src lines 275-282).  The loop
runs `max 0 mChannelCount` times. -/
def ActivityTestOutput.setAmplitude {D : Type} (s : ActivityTestOutput D) (amplitude : D) :
    Option (ActivityTestOutput D) :=
  match setAmplitudeLoop amplitude s.mChannelCount.toNat 0 s.sineOscillators
      s.sawtoothOscillators with
  | none => none
  | some (sine, saw) =>
    some { s with
      sineOscillators := sine
      sawtoothOscillators := saw
      impulseGenerator := s.impulseGenerator.setAmplitudeValue amplitude }

/-- The data members of `ActivityTapToTone` (src line 328). -/
structure ActivityTapToTone (D : Type) extends ActivityTestOutput D where
  sawPingGenerator : SawPingGenerator D

/-- The constructor of `ActivityTapToTone`. -/
def ActivityTapToTone.init {D : Type} (g : Generator D) (p : SawPingGenerator D) :
    ActivityTapToTone D :=
  { ActivityTestOutput.init g with sawPingGenerator := p }

/-- The function `ActivityTapToTone::setAmplitude` (src lines 318-322). -/
def ActivityTapToTone.setAmplitude {D : Type} (s : ActivityTapToTone D) (amplitude : D) :
    Option (ActivityTapToTone D) :=
  match s.toActivityTestOutput.setAmplitude amplitude with
  | none => none
  | some base =>
    some { toActivityTestOutput := base
           sawPingGenerator := s.sawPingGenerator.setAmplitudeValue amplitude }

/-- The function `ActivityTapToTone::setEnabled` (src lines 324-326). -/
def ActivityTapToTone.setEnabled {D : Type} (s : ActivityTapToTone D) (enabled : Bool) :
    ActivityTapToTone D :=
  { s with sawPingGenerator := s.sawPingGenerator.setEnabled enabled }

/-! ## The full-duplex family -/

/-- The function `ActivityFullDuplex::getState` (src line 339). -/
def ActivityFullDuplex.getState (_s : ActivityContext) : Int := -1

/-- The function `ActivityFullDuplex::getResult` (src line 340). -/
def ActivityFullDuplex.getResult (_s : ActivityContext) : Int := -1

/-- The function `ActivityFullDuplex::isAnalyzerDone` (src line 341). -/
def ActivityFullDuplex.isAnalyzerDone (_s : ActivityContext) : Bool := false

/-- The data members of `ActivityEcho` (src line 376). -/
structure ActivityEcho (D : Type) extends ActivityContext where
  mFullDuplexEcho : Option (FullDuplexEcho D)

/-- The member initialisers of `ActivityEcho`: the analyzer pointer starts null. -/
def ActivityEcho.init {D : Type} : ActivityEcho D :=
  { ActivityContext.init with mFullDuplexEcho := none }

/-- The function `ActivityEcho::setDelayTime` (src lines 362-366). -/
def ActivityEcho.setDelayTime {D : Type} (s : ActivityEcho D) (delayTimeSeconds : D) :
    ActivityEcho D :=
  match s.mFullDuplexEcho with
  | some echo => { s with mFullDuplexEcho := some (echo.setDelayTime delayTimeSeconds) }
  | none => s

/-- `ActivityEcho` does not override `getState`. -/
def ActivityEcho.getState {D : Type} (s : ActivityEcho D) : Int :=
  ActivityFullDuplex.getState s.toActivityContext

/-- `ActivityEcho` does not override `getResult`. -/
def ActivityEcho.getResult {D : Type} (s : ActivityEcho D) : Int :=
  ActivityFullDuplex.getResult s.toActivityContext

/-- `ActivityEcho` does not override `isAnalyzerDone`. -/
def ActivityEcho.isAnalyzerDone {D : Type} (s : ActivityEcho D) : Bool :=
  ActivityFullDuplex.isAnalyzerDone s.toActivityContext

/-- The data members of `ActivityRoundTripLatency` (src line 413). -/
structure ActivityRoundTripLatency extends ActivityContext where
  mFullDuplexLatency : Option FullDuplexLatency

/-- The member initialisers of `ActivityRoundTripLatency`. -/
def ActivityRoundTripLatency.init : ActivityRoundTripLatency :=
  { ActivityContext.init with mFullDuplexLatency := none }

/-- The function `ActivityRoundTripLatency::getLatencyAnalyzer` (src lines 391-393);
`none` when `mFullDuplexLatency` is null. -/
def ActivityRoundTripLatency.getLatencyAnalyzer (s : ActivityRoundTripLatency) :
    Option LatencyAnalyzer :=
  s.mFullDuplexLatency.map fun f => f.latencyAnalyzer

/-- The function `ActivityRoundTripLatency::getState` (src lines 395-397). -/
def ActivityRoundTripLatency.getState (s : ActivityRoundTripLatency) : Option Int :=
  s.getLatencyAnalyzer.map fun a => a.state

/-- The function `ActivityRoundTripLatency::getResult` (src lines 398-400):
`return getLatencyAnalyzer()->getState();`. -/
def ActivityRoundTripLatency.getResult (s : ActivityRoundTripLatency) : Option Int :=
  s.getLatencyAnalyzer.map fun a => a.state

/-- The function `ActivityRoundTripLatency::isAnalyzerDone` (src lines 401-403). -/
def ActivityRoundTripLatency.isAnalyzerDone (s : ActivityRoundTripLatency) : Option Bool :=
  s.mFullDuplexLatency.map fun f => f.done

/-- The data members of `ActivityGlitches` (src line 450). -/
structure ActivityGlitches extends ActivityContext where
  mFullDuplexGlitches : Option FullDuplexGlitches

/-- The member initialisers of `ActivityGlitches`. -/
def ActivityGlitches.init : ActivityGlitches :=
  { ActivityContext.init with mFullDuplexGlitches := none }

/-- The function `ActivityGlitches::getGlitchAnalyzer` (src lines 428-430); `none`
when `mFullDuplexGlitches` is null. -/
def ActivityGlitches.getGlitchAnalyzer (s : ActivityGlitches) : Option GlitchAnalyzer :=
  s.mFullDuplexGlitches.map fun f => f.glitchAnalyzer

/-- The function `ActivityGlitches::getState` (src lines 432-434). -/
def ActivityGlitches.getState (s : ActivityGlitches) : Option Int :=
  s.getGlitchAnalyzer.map fun a => a.state

/-- The function `ActivityGlitches::getResult` (src lines 435-437). -/
def ActivityGlitches.getResult (s : ActivityGlitches) : Option Int :=
  s.getGlitchAnalyzer.map fun a => a.result

/-- The function `ActivityGlitches::isAnalyzerDone` (src lines 438-440). -/
def ActivityGlitches.isAnalyzerDone (s : ActivityGlitches) : Option Bool :=
  s.mFullDuplexGlitches.map fun f => f.done

/-! ## `NativeAudioContext` -/

/-- The seven activity objects that `NativeAudioContext` holds by value (src lines
497-503).  A non-null `ActivityContext *` into the context is one of them. -/
inductive ActivityMember
  | mActivityTestOutput
  | mActivityTestInput
  | mActivityTapToTone
  | mActivityRecording
  | mActivityEcho
  | mActivityRoundTripLatency
  | mActivityGlitches
  deriving DecidableEq, Repr

/-- The enumerator `ActivityType::Undefined` (src lines 508-517). -/
def ActivityType.Undefined : Int := -1
/-- The enumerator `ActivityType::TestOutput`. -/
def ActivityType.TestOutput : Int := 0
/-- The enumerator `ActivityType::TestInput`. -/
def ActivityType.TestInput : Int := 1
/-- The enumerator `ActivityType::TapToTone`. -/
def ActivityType.TapToTone : Int := 2
/-- The enumerator `ActivityType::RecordPlay`. -/
def ActivityType.RecordPlay : Int := 3
/-- The enumerator `ActivityType::Echo`. -/
def ActivityType.Echo : Int := 4
/-- The enumerator `ActivityType::RoundTripLatency`. -/
def ActivityType.RoundTripLatency : Int := 5
/-- The enumerator `ActivityType::Glitches`. -/
def ActivityType.Glitches : Int := 6

/-- The data members of `NativeAudioContext` (src lines 497-520). -/
structure NativeAudioContext (D : Type) where
  mActivityTestOutput : ActivityTestOutput D
  mActivityTestInput : ActivityTestInput
  mActivityTapToTone : ActivityTapToTone D
  mActivityRecording : ActivityRecording
  mActivityEcho : ActivityEcho D
  mActivityRoundTripLatency : ActivityRoundTripLatency
  mActivityGlitches : ActivityGlitches
  mActivityType : Int
  currentActivity : Option ActivityMember

/-- The state of a freshly constructed `NativeAudioContext`:
`mActivityType = ActivityType::Undefined`, `currentActivity = &mActivityTestOutput`. -/
def NativeAudioContext.init {D : Type} (g : Generator D) (p : SawPingGenerator D) :
    NativeAudioContext D :=
  { mActivityTestOutput := ActivityTestOutput.init g
    mActivityTestInput := ActivityTestInput.init
    mActivityTapToTone := ActivityTapToTone.init g p
    mActivityRecording := ActivityRecording.init
    mActivityEcho := ActivityEcho.init
    mActivityRoundTripLatency := ActivityRoundTripLatency.init
    mActivityGlitches := ActivityGlitches.init
    mActivityType := ActivityType.Undefined
    currentActivity := some ActivityMember.mActivityTestOutput }

/-- The function `NativeAudioContext::getCurrentActivity` (src lines 459-461). -/
def NativeAudioContext.getCurrentActivity {D : Type} (s : NativeAudioContext D) :
    Option ActivityMember :=
  s.currentActivity

/-- The `switch` of `NativeAudioContext::setActivityType` (src lines 466-490): the
member whose address is assigned to `currentActivity`.  `default`, `Undefined` and
`TestOutput` share the first branch. -/
def selectActivity (mActivityType : Int) : ActivityMember :=
  if mActivityType = ActivityType.TestInput then ActivityMember.mActivityTestInput
  else if mActivityType = ActivityType.TapToTone then ActivityMember.mActivityTapToTone
  else if mActivityType = ActivityType.RecordPlay then ActivityMember.mActivityRecording
  else if mActivityType = ActivityType.Echo then ActivityMember.mActivityEcho
  else if mActivityType = ActivityType.RoundTripLatency then
    ActivityMember.mActivityRoundTripLatency
  else if mActivityType = ActivityType.Glitches then ActivityMember.mActivityGlitches
  else ActivityMember.mActivityTestOutput

/-- The function `NativeAudioContext::setActivityType` (src lines 463-491). -/
def NativeAudioContext.setActivityType {D : Type} (s : NativeAudioContext D)
    (activityType : Int) : NativeAudioContext D :=
  { s with
    mActivityType := activityType
    currentActivity := some (selectActivity activityType) }

/-- The function `NativeAudioContext::setDelayTime` (src lines 493-495). -/
def NativeAudioContext.setDelayTime {D : Type} (s : NativeAudioContext D)
    (delayTimeMillis : D) : NativeAudioContext D :=
  { s with mActivityEcho := s.mActivityEcho.setDelayTime delayTimeMillis }

/-! ## Concrete states used in the examples -/

/-- A freshly constructed context over integer-valued samples: all generators at
amplitude 0, no stream opened, no analyzer allocated. -/
def freshContext : NativeAudioContext Int :=
  NativeAudioContext.init ⟨0, 0⟩ ⟨0, 0, false⟩

/-- A stopPlayback that fails with error code -899 and leaves the state alone. -/
def failingStopPlayback : Nat → Result × Nat := fun n => (⟨-899⟩, n)

/-- A stopAllStreams that succeeds and counts the streams it stopped. -/
def countingStopAllStreams : Nat → Result × Nat := fun n => (Result.OK, n + 1)

/-- A context whose Echo activity has been opened (its analyzer exists, delay 0)
while the current activity is still TestOutput. -/
def openedEchoContext : NativeAudioContext Int :=
  { freshContext with
    mActivityEcho := { (ActivityEcho.init : ActivityEcho Int) with
      mFullDuplexEcho := some ⟨0⟩ } }

/-- An activity whose blocking-I/O thread (handle 1) is running. -/
def threadedActivity : ActivityContext :=
  { ActivityContext.init with threadEnabled := true, dataThread := some 1 }

/-- A stereo output activity: 8 sine and 8 sawtooth oscillators at amplitude 1,
negotiated channel count 2. -/
def stereoOutput : ActivityTestOutput Int :=
  { ActivityTestOutput.init ⟨1, 0⟩ with mChannelCount := 2 }

/-- A stereo tap-to-tone activity with its ping generator enabled at amplitude 1. -/
def stereoTapToTone : ActivityTapToTone Int :=
  { stereoOutput with sawPingGenerator := ⟨1, 0, true⟩ }

/-! ## Theorems -/
/-! ### The activity selector -/

/-- C1: for every integer `activityType` and every prior state, `setActivityType`
followed by `getCurrentActivity` returns a non-null pointer to one of the seven
members; selecting the same value again returns the same member; the member
returned does not depend on the prior state; and the seven member objects are
left as they were (not recreated). -/
theorem setActivityType_current_is_stable_member {D : Type} (s : NativeAudioContext D)
    (activityType : Int) :
    (∃ m : ActivityMember,
        (s.setActivityType activityType).getCurrentActivity = some m) ∧
      (s.setActivityType activityType).getCurrentActivity ≠ none ∧
      ((s.setActivityType activityType).setActivityType activityType).getCurrentActivity
        = (s.setActivityType activityType).getCurrentActivity ∧
      (∀ s2 : NativeAudioContext D,
        (s2.setActivityType activityType).getCurrentActivity
          = (s.setActivityType activityType).getCurrentActivity) ∧
      (s.setActivityType activityType).mActivityTestOutput = s.mActivityTestOutput ∧
      (s.setActivityType activityType).mActivityTestInput = s.mActivityTestInput ∧
      (s.setActivityType activityType).mActivityTapToTone = s.mActivityTapToTone ∧
      (s.setActivityType activityType).mActivityRecording = s.mActivityRecording ∧
      (s.setActivityType activityType).mActivityEcho = s.mActivityEcho ∧
      (s.setActivityType activityType).mActivityRoundTripLatency
        = s.mActivityRoundTripLatency ∧
      (s.setActivityType activityType).mActivityGlitches = s.mActivityGlitches := by
  refine ⟨⟨selectActivity activityType, rfl⟩, ?_, rfl, fun _ => rfl, rfl, rfl, rfl, rfl,
    rfl, rfl, rfl⟩
  simp [NativeAudioContext.setActivityType, NativeAudioContext.getCurrentActivity]

/-- C2: `setActivityType` maps 0 to TestOutput, 1 to TestInput, 2 to TapToTone, 3 to
ActivityRecording, 4 to Echo, 5 to RoundTripLatency, 6 to Glitches, and every other
integer to TestOutput; the codes 0..6 select pairwise distinct members; a freshly
constructed context already points at TestOutput. -/
theorem setActivityType_mapping {D : Type} (s : NativeAudioContext D) (g : Generator D)
    (p : SawPingGenerator D) :
    (s.setActivityType 0).getCurrentActivity = some ActivityMember.mActivityTestOutput ∧
      (s.setActivityType 1).getCurrentActivity = some ActivityMember.mActivityTestInput ∧
      (s.setActivityType 2).getCurrentActivity = some ActivityMember.mActivityTapToTone ∧
      (s.setActivityType 3).getCurrentActivity = some ActivityMember.mActivityRecording ∧
      (s.setActivityType 4).getCurrentActivity = some ActivityMember.mActivityEcho ∧
      (s.setActivityType 5).getCurrentActivity
        = some ActivityMember.mActivityRoundTripLatency ∧
      (s.setActivityType 6).getCurrentActivity = some ActivityMember.mActivityGlitches ∧
      (∀ t : Int, (t < 0 ∨ 6 < t) →
        (s.setActivityType t).getCurrentActivity
          = some ActivityMember.mActivityTestOutput) ∧
      ([0, 1, 2, 3, 4, 5, 6].map
        fun t : Int => (s.setActivityType t).getCurrentActivity).Nodup ∧
      (NativeAudioContext.init g p).getCurrentActivity
        = some ActivityMember.mActivityTestOutput := by
  refine ⟨rfl, rfl, rfl, rfl, rfl, rfl, rfl, ?_, ?_, rfl⟩
  · intro t ht
    simp only [NativeAudioContext.setActivityType, NativeAudioContext.getCurrentActivity,
      selectActivity, ActivityType.TestInput, ActivityType.TapToTone,
      ActivityType.RecordPlay, ActivityType.Echo, ActivityType.RoundTripLatency,
      ActivityType.Glitches]
    have h1 : t ≠ 1 := by omega
    have h2 : t ≠ 2 := by omega
    have h3 : t ≠ 3 := by omega
    have h4 : t ≠ 4 := by omega
    have h5 : t ≠ 5 := by omega
    have h6 : t ≠ 6 := by omega
    simp [h1, h2, h3, h4, h5, h6]
  · simp only [NativeAudioContext.setActivityType, NativeAudioContext.getCurrentActivity,
      List.map]
    decide

/-- Witness for C2 on a fresh context: the codes -1 (Undefined) and 7 select
TestOutput. -/
theorem setActivityType_mapping_witness :
    (freshContext.setActivityType (-1)).getCurrentActivity
        = some ActivityMember.mActivityTestOutput ∧
      (freshContext.setActivityType 7).getCurrentActivity
        = some ActivityMember.mActivityTestOutput :=
  ⟨(setActivityType_mapping freshContext ⟨0, 0⟩ ⟨0, 0, false⟩).2.2.2.2.2.2.2.1 (-1)
      (Or.inl (by decide)),
    (setActivityType_mapping freshContext ⟨0, 0⟩ ⟨0, 0, false⟩).2.2.2.2.2.2.2.1 7
      (Or.inr (by decide))⟩

/-! ### `ActivityRecording::stop` -/

/-- C3: with `p` the result of `stopPlayback` and `a` the result of the base stop run
on the state `stopPlayback` left, `ActivityRecording::stop` returns `p` when `p` is
not OK and `a` otherwise; it returns OK exactly when both are OK; and when `p` is an
error and `a` is OK it returns `p`. -/
theorem recording_stop_result {σ : Type} (stopPlayback stopAllStreams : σ → Result × σ)
    (s : σ) :
    (ActivityRecording.stop stopPlayback stopAllStreams s).1
        = (if (stopPlayback s).1 ≠ Result.OK then (stopPlayback s).1
            else (stopAllStreams (stopPlayback s).2).1) ∧
      ((ActivityRecording.stop stopPlayback stopAllStreams s).1 = Result.OK ↔
        (stopPlayback s).1 = Result.OK ∧
          (stopAllStreams (stopPlayback s).2).1 = Result.OK) ∧
      ((stopPlayback s).1 ≠ Result.OK →
        (stopAllStreams (stopPlayback s).2).1 = Result.OK →
          (ActivityRecording.stop stopPlayback stopAllStreams s).1 = (stopPlayback s).1) := by
  refine ⟨rfl, ?_, ?_⟩ <;> simp only [ActivityRecording.stop, ActivityContext.stop]
  · by_cases hp : (stopPlayback s).1 = Result.OK
    · simp [hp]
    · simp [hp]
  · intro hp _
    simp [hp]

/-- Witness for C3: playback-stop fails with -899, audio-stop succeeds, and `stop`
returns -899. -/
theorem recording_stop_result_witness :
    (ActivityRecording.stop failingStopPlayback countingStopAllStreams 0).1
      = (⟨-899⟩ : Result) :=
  (recording_stop_result failingStopPlayback countingStopAllStreams 0).2.2
    (by decide) rfl

/-- C4: `ActivityRecording::stop` runs `stopPlayback` and then `stopAllStreams`, each
once, whatever `stopPlayback` returns: the final state is the one `stopAllStreams`
leaves when started from the state `stopPlayback` left, and with both sub-steps
instrumented the call log grows by exactly `stopPlayback, stopAllStreams`. -/
theorem recording_stop_runs_both_in_order {σ : Type}
    (stopPlayback stopAllStreams : σ → Result × σ) (s : σ) (log : List TeardownCall) :
    (ActivityRecording.stop stopPlayback stopAllStreams s).2
        = (stopAllStreams (stopPlayback s).2).2 ∧
      (ActivityRecording.stop (recordCall TeardownCall.stopPlayback stopPlayback)
          (recordCall TeardownCall.stopAllStreams stopAllStreams) (s, log)).2
        = ((stopAllStreams (stopPlayback s).2).2,
            log ++ [TeardownCall.stopPlayback, TeardownCall.stopAllStreams]) := by
  simp [ActivityRecording.stop, ActivityContext.stop, recordCall]

/-! ### `setDelayTime` -/

/-- C5, as stated, fails on a fresh context: the Echo analyzer does not exist yet,
`setDelayTime(5)` changes nothing at all, and after switching to Echo (code 4) no
delay of 5 is in effect. -/
theorem setDelayTime_dropped_without_analyzer :
    ((freshContext.setDelayTime 5).mActivityEcho.mFullDuplexEcho.map
        fun e => e.delayTimeSeconds) = none ∧
      freshContext.setDelayTime 5 = freshContext ∧
      freshContext.setDelayTime 5 = freshContext.setDelayTime 7 ∧
      (((freshContext.setDelayTime 5).setActivityType 4).mActivityEcho.mFullDuplexEcho.map
        fun e => e.delayTimeSeconds) ≠ some 5 := by
  refine ⟨rfl, rfl, rfl, ?_⟩
  simp [freshContext, NativeAudioContext.init, NativeAudioContext.setDelayTime,
    NativeAudioContext.setActivityType, ActivityEcho.setDelayTime, ActivityEcho.init]

/-- C5, amended: `setDelayTime(d)` is applied to the Echo member whatever the current
activity is, and leaves the selection and the six other members unchanged.  The
delay reaches the echo analyzer when that analyzer exists, and is then still in
effect after any later `setActivityType`; when the analyzer does not exist the
call changes nothing. -/
theorem setDelayTime_routed_to_echo {D : Type} (s : NativeAudioContext D) (d : D) :
    (s.setDelayTime d).mActivityEcho = s.mActivityEcho.setDelayTime d ∧
      (s.setDelayTime d).currentActivity = s.currentActivity ∧
      (s.setDelayTime d).mActivityType = s.mActivityType ∧
      (s.setDelayTime d).mActivityTestOutput = s.mActivityTestOutput ∧
      (s.setDelayTime d).mActivityTestInput = s.mActivityTestInput ∧
      (s.setDelayTime d).mActivityTapToTone = s.mActivityTapToTone ∧
      (s.setDelayTime d).mActivityRecording = s.mActivityRecording ∧
      (s.setDelayTime d).mActivityRoundTripLatency = s.mActivityRoundTripLatency ∧
      (s.setDelayTime d).mActivityGlitches = s.mActivityGlitches ∧
      (s.setDelayTime d).mActivityEcho.toActivityContext
        = s.mActivityEcho.toActivityContext ∧
      (∀ e : FullDuplexEcho D, s.mActivityEcho.mFullDuplexEcho = some e →
        ((s.setDelayTime d).mActivityEcho.mFullDuplexEcho.map
            fun x => x.delayTimeSeconds) = some d ∧
          ∀ t : Int,
            (((s.setDelayTime d).setActivityType t).mActivityEcho.mFullDuplexEcho.map
              fun x => x.delayTimeSeconds) = some d) ∧
      (s.mActivityEcho.mFullDuplexEcho = none → s.setDelayTime d = s) := by
  refine ⟨rfl, rfl, rfl, rfl, rfl, rfl, rfl, rfl, rfl, ?_, ?_, ?_⟩
  · simp only [NativeAudioContext.setDelayTime, ActivityEcho.setDelayTime]
    cases s.mActivityEcho.mFullDuplexEcho <;> rfl
  · intro e he
    simp [NativeAudioContext.setDelayTime, NativeAudioContext.setActivityType,
      ActivityEcho.setDelayTime, he, FullDuplexEcho.setDelayTime]
  · intro he
    simp [NativeAudioContext.setDelayTime, ActivityEcho.setDelayTime, he]

/-- Witness for the amended C5: the analyzer exists, TestOutput is current, and the
delay 5 reaches the analyzer. -/
theorem setDelayTime_routed_to_echo_witness :
    openedEchoContext.currentActivity = some ActivityMember.mActivityTestOutput ∧
      ((openedEchoContext.setDelayTime 5).mActivityEcho.mFullDuplexEcho.map
        fun x => x.delayTimeSeconds) = some 5 :=
  ⟨rfl, ((setDelayTime_routed_to_echo openedEchoContext 5).2.2.2.2.2.2.2.2.2.2.1
    ⟨0⟩ rfl).1⟩

/-! ### `stopBlockingIOThread` -/

/-- C7: when a background thread exists, `stopBlockingIOThread` stores false into
`threadEnabled`, then joins that thread, and returns with the flag false and
`dataThread` null, every other field unchanged; when no thread exists it changes
no field and performs no effect; a second consecutive call is a no-op. -/
theorem stopBlockingIOThread_clears_and_joins (s : ActivityContext) :
    (∀ t : ThreadId, s.dataThread = some t →
        s.stopBlockingIOThread.1.threadEnabled = false ∧
          s.stopBlockingIOThread.1.dataThread = none ∧
          s.stopBlockingIOThread.2
            = [ThreadEffect.storeThreadEnabled false, ThreadEffect.joinThread t] ∧
          s.stopBlockingIOThread.1.mOboeStreams = s.mOboeStreams ∧
          s.stopBlockingIOThread.1.mFramesPerBurst = s.mFramesPerBurst ∧
          s.stopBlockingIOThread.1.mChannelCount = s.mChannelCount ∧
          s.stopBlockingIOThread.1.mSampleRate = s.mSampleRate ∧
          s.stopBlockingIOThread.1.mLibHandle = s.mLibHandle) ∧
      (s.dataThread = none → s.stopBlockingIOThread = (s, [])) ∧
      s.stopBlockingIOThread.1.stopBlockingIOThread = (s.stopBlockingIOThread.1, []) := by
  refine ⟨?_, ?_, ?_⟩
  · intro t ht
    simp [ActivityContext.stopBlockingIOThread, ht]
  · intro ht
    simp [ActivityContext.stopBlockingIOThread, ht]
  · cases ht : s.dataThread <;> simp [ActivityContext.stopBlockingIOThread, ht]

/-- Witness for C7: thread 1 is running with the flag set; after the call the flag
is clear, the handle is null and thread 1 was joined after the store. -/
theorem stopBlockingIOThread_clears_and_joins_witness :
    threadedActivity.threadEnabled = true ∧
      threadedActivity.stopBlockingIOThread.1.threadEnabled = false ∧
      threadedActivity.stopBlockingIOThread.1.dataThread = none ∧
      threadedActivity.stopBlockingIOThread.2
        = [ThreadEffect.storeThreadEnabled false, ThreadEffect.joinThread 1] :=
  ⟨rfl,
    ((stopBlockingIOThread_clears_and_joins threadedActivity).1 1 rfl).1,
    ((stopBlockingIOThread_clears_and_joins threadedActivity).1 1 rfl).2.1,
    ((stopBlockingIOThread_clears_and_joins threadedActivity).1 1 rfl).2.2.1⟩

/-! ### `getStream` -/

/-- C8: `getStream` returns the stored handle for an index inside the table, but
for the indices 8 and -1 it performs the array read outside the table instead of
refusing it: the body has no range check. -/
theorem getStream_reads_outside_table :
    (∀ (s : ActivityContext) (i : Fin kMaxStreams),
        s.getStream (i.val : Int) = SlotRead.stored (s.mOboeStreams i)) ∧
      ActivityContext.init.getStream 8 = SlotRead.outsideTable 8 ∧
      ActivityContext.init.getStream (-1) = SlotRead.outsideTable (-1) ∧
      ActivityContext.init.getStream 8 ≠ SlotRead.stored none := by
  refine ⟨?_, ?_, ?_, ?_⟩
  · intro s i
    have hi : (i.val : Int) < (kMaxStreams : Int) := by exact_mod_cast i.isLt
    have h0 : (0 : Int) ≤ (i.val : Int) := Int.ofNat_nonneg _
    simp [ActivityContext.getStream, hi]
  · simp [ActivityContext.getStream, kMaxStreams]
  · simp [ActivityContext.getStream, kMaxStreams]
  · simp [ActivityContext.getStream, kMaxStreams]

/-! ### Analyzer queries -/

/-- C10: `ActivityRoundTripLatency::getResult` equals `getState` in every state, and
with an analyzer present both are the latency analyzer's state code, whatever its
result field holds; `ActivityGlitches::getResult` is the glitch analyzer's result and
`getState` its state; `ActivityEcho` answers -1, -1 and false. -/
theorem analyzer_queries {D : Type} (latency : ActivityRoundTripLatency)
    (base : ActivityContext) (fl : FullDuplexLatency) (fg : FullDuplexGlitches)
    (echo : ActivityEcho D) :
    latency.getResult = latency.getState ∧
      ActivityRoundTripLatency.getResult { base with mFullDuplexLatency := some fl }
        = some fl.latencyAnalyzer.state ∧
      ActivityRoundTripLatency.getState { base with mFullDuplexLatency := some fl }
        = some fl.latencyAnalyzer.state ∧
      ActivityGlitches.getResult { base with mFullDuplexGlitches := some fg }
        = some fg.glitchAnalyzer.result ∧
      ActivityGlitches.getState { base with mFullDuplexGlitches := some fg }
        = some fg.glitchAnalyzer.state ∧
      echo.getState = -1 ∧ echo.getResult = -1 ∧ echo.isAnalyzerDone = false :=
  ⟨rfl, rfl, rfl, rfl, rfl, rfl, rfl, rfl⟩

/-! ### `setAmplitude` -/

/-- An indexed amplitude store inside the vector succeeds and replaces element `i`. -/
theorem setOscillatorAmplitude_of_lt {D : Type} (xs : List (Generator D)) (i : Nat) (a : D)
    (h : i < xs.length) :
    setOscillatorAmplitude xs i a
      = some (xs.set i ((xs.get ⟨i, h⟩).setAmplitudeValue a)) := by
  simp [setOscillatorAmplitude, h]

/-- Reading position `j` after the amplitude store at position `i`. -/
theorem getElem?_set_amplitude {D : Type} (xs : List (Generator D)) (i j : Nat) (a : D)
    (h : i < xs.length) :
    (xs.set i ((xs.get ⟨i, h⟩).setAmplitudeValue a))[j]?
      = (xs[j]?).map fun g => if j = i then g.setAmplitudeValue a else g := by
  by_cases hji : j = i
  · subst hji
    simp [List.getElem?_set, h]
  · have hij : i ≠ j := fun e => hji e.symm
    simp [List.getElem?_set, hji, hij]

/-- One loop iteration at index `i` followed by the stores on `[i+1, i+1+k)` amounts
to the stores on `[i, i+k+1)`. -/
theorem store_then_range {D : Type} (xs : List (Generator D)) (i k j : Nat) (a : D)
    (h : i < xs.length) :
    ((xs.set i ((xs.get ⟨i, h⟩).setAmplitudeValue a))[j]?).map
        (fun g => if i + 1 ≤ j ∧ j < i + 1 + k then g.setAmplitudeValue a else g)
      = (xs[j]?).map
        fun g => if i ≤ j ∧ j < i + (k + 1) then g.setAmplitudeValue a else g := by
  rw [getElem?_set_amplitude]
  cases xs[j]? with
  | none => rfl
  | some g =>
    simp only [Option.map_some']
    by_cases hji : j = i
    · subst hji
      have h1 : ¬ (j + 1 ≤ j ∧ j < j + 1 + k) := by omega
      have h2 : j ≤ j ∧ j < j + (k + 1) := by omega
      simp [h1, h2]
    · by_cases hc : i + 1 ≤ j ∧ j < i + 1 + k
      · have h2 : i ≤ j ∧ j < i + (k + 1) := by omega
        simp [hji, hc, h2]
      · have h2 : ¬ (i ≤ j ∧ j < i + (k + 1)) := by omega
        simp [hji, hc, h2]

/-- The loop of `setAmplitude`, run for `k` iterations from index `i` inside both
vectors, returns, and stores the amplitude at exactly the positions `[i, i+k)`. -/
theorem setAmplitudeLoop_spec {D : Type} (a : D) :
    ∀ (k i : Nat) (sine saw : List (Generator D)),
      i + k ≤ sine.length → i + k ≤ saw.length →
      ∃ sine1 saw1, setAmplitudeLoop a k i sine saw = some (sine1, saw1) ∧
        (∀ j, sine1[j]? = (sine[j]?).map
          fun g => if i ≤ j ∧ j < i + k then g.setAmplitudeValue a else g) ∧
        (∀ j, saw1[j]? = (saw[j]?).map
          fun g => if i ≤ j ∧ j < i + k then g.setAmplitudeValue a else g) := by
  intro k
  induction k with
  | zero =>
    intro i sine saw _ _
    refine ⟨sine, saw, rfl, ?_, ?_⟩ <;> intro j <;>
      · have hc : ¬ (i ≤ j ∧ j < i + 0) := by omega
        rw [show (fun g : Generator D =>
            if i ≤ j ∧ j < i + 0 then g.setAmplitudeValue a else g) = id from
          funext fun g => if_neg hc]
        simp
  | succ k ih =>
    intro i sine saw hs hw
    have hi1 : i < sine.length := by omega
    have hi2 : i < saw.length := by omega
    obtain ⟨sine1, saw1, hloop, h1, h2⟩ := ih (i + 1)
      (sine.set i ((sine.get ⟨i, hi1⟩).setAmplitudeValue a))
      (saw.set i ((saw.get ⟨i, hi2⟩).setAmplitudeValue a))
      (by simp; omega) (by simp; omega)
    refine ⟨sine1, saw1, ?_, ?_, ?_⟩
    · simp only [setAmplitudeLoop, setOscillatorAmplitude_of_lt _ _ _ hi1,
        setOscillatorAmplitude_of_lt _ _ _ hi2]
      exact hloop
    · intro j
      rw [h1 j, store_then_range]
    · intro j
      rw [h2 j, store_then_range]

/-- C6, as stated, fails on a stereo output: `setAmplitude(0)` writes 0 to the
oscillators 0 and 1 and to the impulse generator, and leaves the oscillators 2..7 of
both banks at their old amplitude 1. -/
theorem setAmplitude_skips_unused_oscillators :
    (stereoOutput.setAmplitude 0).map
        (fun r => (r.sineOscillators.map fun g => g.amplitude,
          r.sawtoothOscillators.map fun g => g.amplitude,
          r.impulseGenerator.amplitude))
      = some ([0, 0, 1, 1, 1, 1, 1, 1], [0, 0, 1, 1, 1, 1, 1, 1], 0) := by
  decide

/-- C6, amended: when the negotiated channel count does not exceed the number of
oscillators in either bank, `setAmplitude(a)` returns and sets the amplitude of the
sine and sawtooth oscillators with index below the channel count, and of the
impulse generator, to `a`; the oscillators at or above the channel count keep their
amplitude; the channel-enabled state, the tone type, the sinks and the base fields
are unchanged. -/
theorem setAmplitude_sets_negotiated_channels {D : Type} (s : ActivityTestOutput D) (a : D)
    (hs : s.mChannelCount ≤ s.sineOscillators.length)
    (hw : s.mChannelCount ≤ s.sawtoothOscillators.length) :
    ∃ r, s.setAmplitude a = some r ∧
      (∀ j : Nat, r.sineOscillators[j]? = (s.sineOscillators[j]?).map
        fun g => if (j : Int) < s.mChannelCount then g.setAmplitudeValue a else g) ∧
      (∀ j : Nat, r.sawtoothOscillators[j]? = (s.sawtoothOscillators[j]?).map
        fun g => if (j : Int) < s.mChannelCount then g.setAmplitudeValue a else g) ∧
      r.impulseGenerator = s.impulseGenerator.setAmplitudeValue a ∧
      r.toActivityContext = s.toActivityContext ∧
      r.mToneType = s.mToneType ∧
      r.manyToMulti = s.manyToMulti ∧
      r.monoToMulti = s.monoToMulti ∧
      r.mSinkFloat = s.mSinkFloat ∧
      r.mSinkI16 = s.mSinkI16 := by
  obtain ⟨sine1, saw1, hloop, h1, h2⟩ := setAmplitudeLoop_spec a s.mChannelCount.toNat 0
    s.sineOscillators s.sawtoothOscillators (by omega) (by omega)
  have hfun : ∀ j : Nat,
      (fun g : Generator D =>
        if 0 ≤ j ∧ j < 0 + s.mChannelCount.toNat then g.setAmplitudeValue a else g)
      = fun g => if (j : Int) < s.mChannelCount then g.setAmplitudeValue a else g := by
    intro j
    funext g
    by_cases hc : (j : Int) < s.mChannelCount
    · have h3 : 0 ≤ j ∧ j < 0 + s.mChannelCount.toNat := by omega
      rw [if_pos hc, if_pos h3]
    · have h3 : ¬ (0 ≤ j ∧ j < 0 + s.mChannelCount.toNat) := by omega
      rw [if_neg hc, if_neg h3]
  refine ⟨{ s with
      sineOscillators := sine1
      sawtoothOscillators := saw1
      impulseGenerator := s.impulseGenerator.setAmplitudeValue a }, ?_, ?_, ?_, rfl, rfl,
    rfl, rfl, rfl, rfl, rfl⟩
  · simp [ActivityTestOutput.setAmplitude, hloop]
  · intro j
    rw [← hfun j]
    exact h1 j
  · intro j
    rw [← hfun j]
    exact h2 j

/-- Witness for the amended C6 on the stereo output: the call returns, the impulse
generator gets amplitude 0 and the tone type stays Sine. -/
theorem setAmplitude_sets_negotiated_channels_witness :
    stereoOutput.mChannelCount = 2 ∧
      ∃ r, stereoOutput.setAmplitude 0 = some r ∧
        r.impulseGenerator = stereoOutput.impulseGenerator.setAmplitudeValue 0 ∧
        r.mToneType = ToneType.Sine := by
  obtain ⟨r, hr, _, _, hi, _, ht, _⟩ :=
    setAmplitude_sets_negotiated_channels stereoOutput 0 (by decide) (by decide)
  exact ⟨rfl, r, hr, hi, ht⟩

/-! ### `ActivityTapToTone` -/

/-- C9: `ActivityTapToTone::setEnabled` changes only the enabled state of the
saw-ping generator: the inherited `ActivityTestOutput` part (sine, sawtooth and
impulse generators, tone type, stream table) and the ping generator's amplitude and
phase are unchanged.  `ActivityTapToTone::setAmplitude(a)` returns exactly when
`ActivityTestOutput::setAmplitude(a)` does, leaves the inherited part as that call
leaves it, sets the ping generator's amplitude to `a` and keeps its enabled state. -/
theorem tapToTone_setEnabled_setAmplitude {D : Type} (s : ActivityTapToTone D)
    (enabled : Bool) (a : D) :
    (s.setEnabled enabled).toActivityTestOutput = s.toActivityTestOutput ∧
      (s.setEnabled enabled).sawPingGenerator.enabled = enabled ∧
      (s.setEnabled enabled).sawPingGenerator.amplitude = s.sawPingGenerator.amplitude ∧
      (s.setEnabled enabled).sawPingGenerator.phase = s.sawPingGenerator.phase ∧
      (∀ base : ActivityTestOutput D, s.toActivityTestOutput.setAmplitude a = some base →
        ∃ r, s.setAmplitude a = some r ∧
          r.toActivityTestOutput = base ∧
          r.sawPingGenerator.amplitude = a ∧
          r.sawPingGenerator.enabled = s.sawPingGenerator.enabled ∧
          r.sawPingGenerator.phase = s.sawPingGenerator.phase) ∧
      (s.toActivityTestOutput.setAmplitude a = none → s.setAmplitude a = none) := by
  refine ⟨rfl, rfl, rfl, rfl, ?_, ?_⟩
  · intro base hbase
    refine ⟨{ toActivityTestOutput := base
              sawPingGenerator := s.sawPingGenerator.setAmplitudeValue a }, ?_, rfl, rfl,
      rfl, rfl⟩
    simp [ActivityTapToTone.setAmplitude, hbase]
  · intro hbase
    simp [ActivityTapToTone.setAmplitude, hbase]

/-- Witness for C9 on the stereo tap-to-tone activity: `setAmplitude(0)` returns,
the ping generator gets amplitude 0 and stays enabled. -/
theorem tapToTone_setEnabled_setAmplitude_witness :
    ∃ r, stereoTapToTone.setAmplitude 0 = some r ∧
      r.sawPingGenerator.amplitude = 0 ∧ r.sawPingGenerator.enabled = true := by
  have hsome : (stereoTapToTone.toActivityTestOutput.setAmplitude 0).isSome = true := by
    decide
  obtain ⟨base, hbase⟩ := Option.isSome_iff_exists.mp hsome
  obtain ⟨r, hr, _, ha, he, _⟩ :=
    (tapToTone_setEnabled_setAmplitude stereoTapToTone true 0).2.2.2.2.1 base hbase
  exact ⟨r, hr, ha, he⟩

end OboeTester
